import Mathlib

/-!
Verification of the `moon_days` repository (files `generator/generator.py`
and `one_year_table/year_moon_days.py`).

Shallow embedding conventions:
* Python floats (ephemeris longitudes, Julian days, hour fractions) are
  modelled as exact rationals `ℚ`.
* Python `datetime.date` values are modelled by their proleptic-Gregorian
  ordinal (`date.toordinal()`), an integer; `date + timedelta(days=k)` is
  ordinal addition and `(a - b).days` is ordinal subtraction.
* Every call into the external libraries (swisseph, pytz, datetime
  construction/zone conversion) may raise; this is modelled by an abstract
  library interface `Lib ε` whose operations return `Except ε _`, and the
  repository code — which contains no `try`/`except` — propagates every
  `.error` unchanged, exactly as Python exceptions do.
* Python `%` on ints with the positive modulus 30 is `Int.emod`; Python `%`
  on floats with positive modulus is `pymodQ`; Python `int()` truncation
  toward zero is `pytrunc`; Python `//` on floats is `Int.floor` of the
  division.
-/

/-- Python float `a % b` (for `b > 0`): `a - b * ⌊a / b⌋`, the value in
`[0, b)` congruent to `a`. -/
def pymodQ (a b : ℚ) : ℚ := a - b * ⌊a / b⌋

/-- Python `int()` on a float: truncation toward zero. -/
def pytrunc (q : ℚ) : ℤ := if q < 0 then -⌊-q⌋ else ⌊q⌋

/-- A Python timezone-aware `datetime`: the six numeric components plus the
attached timezone identifier. -/
structure PyDateTime where
  year : ℤ
  month : ℤ
  day : ℤ
  hour : ℤ
  minute : ℤ
  second : ℤ
  tz : String
deriving DecidableEq, Repr

/-- The timezone identifier of `pytz.UTC`. -/
def UTC_TZ : String := "UTC"

/-- The celestial bodies the scripts query (`swe.SUN`, `swe.MOON`). -/
inductive Body | sun | moon
deriving DecidableEq, Repr

/-- Abstract interface to the external libraries (swisseph, pytz,
`datetime.date` component access).  Fallible operations return
`Except ε _`, modelling Python exceptions with error type `ε`.
Dates are proleptic-Gregorian ordinals `ℤ`. -/
structure Lib (ε : Type) where
  /-- Source `swe.julday(y, m, d, hour_fraction)`. -/
  julday : ℤ → ℤ → ℤ → ℚ → Except ε ℚ
  /-- Source `swe.calc_ut(jd, body)[0][0]`, the ecliptic longitude. -/
  calc_ut : ℚ → Body → Except ε ℚ
  /-- Source `swe.rise_trans(jd0, swe.SUN, swe.CALC_RISE, (lon, lat, 0), 0, 0)`
  returning `tret[0]`; the script always asks for the next sunrise of the
  sun, so only the geographic position and start jd vary. -/
  rise_trans : ℚ → ℚ × ℚ × ℚ → ℚ → ℚ → Except ε ℚ
  /-- Source `swe.revjul(jd, swe.GREG_CAL)`: year, month, day, fractional hour. -/
  revjul : ℚ → Except ε (ℤ × ℤ × ℤ × ℚ)
  /-- Source `pytz.timezone(tz).localize(datetime(y, m, d, hh, mm, ss))`. -/
  localize : String → ℤ → ℤ → ℤ → ℤ → ℤ → ℤ → Except ε PyDateTime
  /-- Source `dt.astimezone(pytz.timezone(tz))` (or `pytz.UTC`). -/
  astimezone : PyDateTime → String → Except ε PyDateTime
  /-- Source `date.year` of the date with the given ordinal. -/
  yearOf : ℤ → ℤ
  /-- Source `date.month` of the date with the given ordinal. -/
  monthOf : ℤ → ℤ
  /-- Source `date.day` of the date with the given ordinal. -/
  dayOf : ℤ → ℤ
  /-- Source `date.isoformat()` of the date with the given ordinal. -/
  iso : ℤ → String

-- =========================
-- CONFIG (both scripts share the same table of cities and constants)
-- =========================

/-- One entry of the hardcoded `CITIES` table: latitude, longitude,
timezone identifier. -/
structure City where
  lat : ℚ
  lon : ℚ
  tz : String
deriving DecidableEq, Repr

/-- The hardcoded `CITIES` table (identical in both scripts); dict order,
`"Mysuru"` first. -/
def CITIES : List (String × City) :=
  [("Mysuru", ⟨12.2958, 76.6394, "Asia/Kolkata"⟩),
   ("Moscow", ⟨55.7558, 37.6173, "Europe/Moscow"⟩),
   ("Saint-Petersburg", ⟨59.9343, 30.3351, "Europe/Moscow"⟩),
   ("Yekaterinburg", ⟨56.8389, 60.6057, "Asia/Yekaterinburg"⟩),
   ("Krasnaya Polyana", ⟨43.6828, 40.2596, "Europe/Moscow"⟩),
   ("Novosibirsk", ⟨55.0084, 82.9357, "Asia/Novosibirsk"⟩),
   ("Minsk", ⟨53.9006, 27.5590, "Europe/Minsk"⟩),
   ("Kyiv", ⟨50.4501, 30.5234, "Europe/Kyiv"⟩),
   ("Astana", ⟨51.1694, 71.4491, "Asia/Almaty"⟩),
   ("Almaty", ⟨43.2389, 76.8897, "Asia/Almaty"⟩)]

/-- Source `MASTER_CITY = "Mysuru"`. -/
def MASTER_CITY : String := "Mysuru"

/-- Source `TITHI_DEG = 12.0`. -/
def TITHI_DEG : ℚ := 12

/-- Source `PURNIMA = 15`. -/
def PURNIMA : ℤ := 15

/-- Source `AMAVASYA = 30`. -/
def AMAVASYA : ℤ := 30

/-- Source `KIND_PURNIMA = 0`. -/
def KIND_PURNIMA : ℤ := 0

/-- Source `KIND_AMAVASYA = 1`. -/
def KIND_AMAVASYA : ℤ := 1

/-- Source `KIND_KSHAYA_PURNIMA = 2`. -/
def KIND_KSHAYA_PURNIMA : ℤ := 2

/-- Source `KIND_KSHAYA_AMAVASYA = 3`. -/
def KIND_KSHAYA_AMAVASYA : ℤ := 3

/-- Source `START_DATE = dt.date(2026, 1, 1)` of the generator, as an ordinal. -/
def START_DATE : ℤ := 739617

/-- Source `END_DATE = dt.date(2101, 1, 1)` of the generator, as an ordinal. -/
def END_DATE : ℤ := 767010

/-- Source `@dataclass MoonEvent`: sequence index, calendar date (ordinal),
event kind (`0`–`3`). -/
structure MoonEvent where
  index : ℕ
  date : ℤ
  kind : ℤ
deriving DecidableEq, Repr

-- =========================
-- ASTRONOMY (identical helper functions in both scripts)
-- =========================

/-- Source `julian_day(dt_utc)`: feeds the datetime components to `swe.julday`. -/
def julian_day {ε : Type} (L : Lib ε) (u : PyDateTime) : Except ε ℚ :=
  L.julday u.year u.month u.day
    ((u.hour : ℚ) + (u.minute : ℚ) / 60 + (u.second : ℚ) / 3600)

/-- Source `tithi_at_jd(jd)`: longitudes of sun and moon, difference mod 360°,
floor-divided by `TITHI_DEG`, plus one. -/
def tithi_at_jd {ε : Type} (L : Lib ε) (jd : ℚ) : Except ε ℤ :=
  match L.calc_ut jd Body.sun with
  | .error e => .error e
  | .ok sun =>
    match L.calc_ut jd Body.moon with
    | .error e => .error e
    | .ok moon => .ok (⌊pymodQ (moon - sun) 360 / TITHI_DEG⌋ + 1)

/-- Source `local_sunrise(date, city)`: local midnight → UTC → Julian day →
`swe.rise_trans` (next sunrise) → `swe.revjul` → truncate the fractional
hour to `hh:mm:ss` → UTC datetime → city's local time. -/
def local_sunrise {ε : Type} (L : Lib ε) (city : City) (date : ℤ) :
    Except ε PyDateTime :=
  match L.localize city.tz (L.yearOf date) (L.monthOf date) (L.dayOf date)
      0 0 0 with
  | .error e => .error e
  | .ok local_midnight =>
  match L.astimezone local_midnight UTC_TZ with
  | .error e => .error e
  | .ok utc_midnight =>
  match julian_day L utc_midnight with
  | .error e => .error e
  | .ok jd0 =>
  match L.rise_trans jd0 (city.lon, city.lat, 0) 0 0 with
  | .error e => .error e
  | .ok jd_rise =>
  match L.revjul jd_rise with
  | .error e => .error e
  | .ok (y, m, d, h) =>
    let hh : ℤ := pytrunc h
    let mm : ℤ := pytrunc ((h - (hh : ℚ)) * 60)
    let ss : ℤ := pytrunc (((h - (hh : ℚ)) * 60 - (mm : ℚ)) * 60)
    L.astimezone ⟨y, m, d, hh, mm, ss, UTC_TZ⟩ city.tz

-- =========================
-- EVENT DETECTION (generator/generator.py)
-- =========================

/-- The skipped-tithi list computed inside `detect_event`:
`[(t0 + i - 1) % 30 + 1 for i in range(1, diff)]` where
`diff = (t1 - t0) % 30`. -/
def skippedList (t0 t1 : ℤ) : List ℤ :=
  (List.range' 1 ((t1 - t0).emod 30 - 1).toNat).map
    (fun i => (t0 + (i : ℤ) - 1).emod 30 + 1)

/-- The branch structure of `detect_event` after both tithis are known
(the tail of the source function, from `if t0 == PURNIMA:` on). -/
def detectRule (t0 t1 : ℤ) : Option ℤ :=
  if t0 = PURNIMA then some KIND_PURNIMA
  else if t0 = AMAVASYA then some KIND_AMAVASYA
  else if 1 < (t1 - t0).emod 30 then
    if PURNIMA ∈ skippedList t0 t1 then some KIND_KSHAYA_PURNIMA
    else if AMAVASYA ∈ skippedList t0 t1 then some KIND_KSHAYA_AMAVASYA
    else none
  else none

/-- Source `detect_event(date, city)`: the tithi at today's and tomorrow's local
sunrise, then `detectRule`. -/
def detect_event {ε : Type} (L : Lib ε) (city : City) (date : ℤ) :
    Except ε (Option ℤ) :=
  match local_sunrise L city date with
  | .error e => .error e
  | .ok sr0 =>
  match local_sunrise L city (date + 1) with
  | .error e => .error e
  | .ok sr1 =>
  match L.astimezone sr0 UTC_TZ with
  | .error e => .error e
  | .ok u0 =>
  match julian_day L u0 with
  | .error e => .error e
  | .ok jd0 =>
  match L.astimezone sr1 UTC_TZ with
  | .error e => .error e
  | .ok u1 =>
  match julian_day L u1 with
  | .error e => .error e
  | .ok jd1 =>
  match tithi_at_jd L jd0 with
  | .error e => .error e
  | .ok t0 =>
  match tithi_at_jd L jd1 with
  | .error e => .error e
  | .ok t1 => .ok (detectRule t0 t1)

-- =========================
-- FULL-RANGE SCAN (generator/generator.py, generate_moon_days)
-- =========================

/-- The de-duplication guard of `generate_moon_days`:
`last_date is None or (d - last_date).days >= 2`. -/
def gapOk (last : Option ℤ) (d : ℤ) : Bool :=
  match last with
  | none => true
  | some ld => decide (2 ≤ d - ld)

/-- The inclusive day range `[a, a+1, ..., b]` iterated by
`while d <= END_DATE`. -/
def dayRange (a b : ℤ) : List ℤ :=
  (List.range (b + 1 - a).toNat).map (fun i => a + Int.ofNat i)

/-- The `while` loop of `generate_moon_days`: walks the remaining days,
carrying the accumulated event list and the date of the last appended
event. -/
def scanDays {ε : Type} (L : Lib ε) (city : City) :
    List ℤ → List MoonEvent → Option ℤ → Except ε (List MoonEvent)
  | [], events, _ => .ok events
  | d :: rest, events, last =>
    match detect_event L city d with
    | .error e => .error e
    | .ok none => scanDays L city rest events last
    | .ok (some kind) =>
      if gapOk last d then
        scanDays L city rest (events ++ [⟨events.length, d, kind⟩]) (some d)
      else
        scanDays L city rest events last

/-- Source `generate_moon_days(city)`: scan every day of the configured range. -/
def generate_moon_days {ε : Type} (L : Lib ε) (city : City) :
    Except ε (List MoonEvent) :=
  scanDays L city (dayRange START_DATE END_DATE) [] none

/-- Satisfaction of a postcondition by a fallible computation: trivially
true on an exception (the claim then being about the successful run). -/
def exceptSat {ε α : Type} (r : Except ε α) (P : α → Prop) : Prop :=
  match r with
  | .error _ => True
  | .ok a => P a

-- =========================
-- CSV FILE OUTPUT (generator/generator.py)
-- =========================

/-- Source `MONTHS` lookup table (index 0 is the empty padding entry). -/
def MONTHS : List String :=
  ["", "Jan", "Feb", "Mar", "Apr", "May", "Jun",
   "Jul", "Aug", "Sep", "Oct", "Nov", "Dec"]

/-- Source `is_kshaya(kind)`. -/
def is_kshaya (kind : ℤ) : Bool :=
  kind = KIND_KSHAYA_PURNIMA ∨ kind = KIND_KSHAYA_AMAVASYA

/-- Source `kind_label(kind)`; the source raises `ValueError` on any other kind,
which the generator never produces — modelled by a sentinel string. -/
def kind_label (kind : ℤ) : String :=
  if kind = KIND_PURNIMA ∨ kind = KIND_KSHAYA_PURNIMA then "PURNIMA"
  else if kind = KIND_AMAVASYA ∨ kind = KIND_KSHAYA_AMAVASYA then "AMAVASYA"
  else "ValueError"

/-- Python `f-string` field `{n:02d}`: zero-padded to width two. -/
def pad2 (n : ℤ) : String :=
  if 0 ≤ n ∧ n < 10 then "0" ++ toString n else toString n

/-- Source `fmt_date(e)`: the day zero-padded to two digits, the month
name, and the year, space-separated; `month` is always
in `1..12` for a real `datetime.date`, so the list lookup never goes out of
range. -/
def fmt_date {ε : Type} (L : Lib ε) (e : MoonEvent) : String :=
  pad2 (L.dayOf e.date) ++ " " ++ (MONTHS.getD (L.monthOf e.date).toNat "")
    ++ " " ++ toString (L.yearOf e.date)

/-- The kshaya marker written into the comparison CSV. -/
def kshayaMark : String := "※"

/-- The per-city `{e.index: e}` dict of `generate_csv`, as a lookup
function; a Python dict comprehension keeps the last entry for a repeated
key, hence the reversed search. -/
def indexLookup (es : List MoonEvent) (i : ℕ) : Option MoonEvent :=
  es.reverse.find? (fun e => e.index == i)

/-- One other-city cell of a comparison-CSV row: blank when the city has no
event at the master index, the kshaya marker for a kshaya event, blank for
an event formatted to the same date string as the master, the city's date
otherwise. -/
def cellFor {ε : Type} (L : Lib ε) (m : ℕ → Option MoonEvent)
    (ref : MoonEvent) : String :=
  match m ref.index with
  | none => ""
  | some ev =>
    if is_kshaya ev.kind then kshayaMark
    else if fmt_date L ev = fmt_date L ref then ""
    else fmt_date L ev

/-- The label cell of a row: `kind_label` plus a kshaya suffix. -/
def labelCell (ref : MoonEvent) : String :=
  kind_label ref.kind ++ (if is_kshaya ref.kind then " ※" else "")

/-- One comparison-CSV row for a master event. -/
def csvRow {ε : Type} (L : Lib ε) (maps : String → ℕ → Option MoonEvent)
    (otherCities : List String) (ref : MoonEvent) : List String :=
  labelCell ref :: fmt_date L ref :: otherCities.map (fun c => cellFor L (maps c) ref)

/-- The master city's event list inside `generate_csv`
(`city_events[ref_name]`; the key is always present). -/
def refEventsOf (cityEvents : List (String × List MoonEvent)) :
    List MoonEvent :=
  ((cityEvents.find? (fun p => p.1 == MASTER_CITY)).map Prod.snd).getD []

/-- The `maps` dictionary of `generate_csv`, as a function from city name
and index. -/
def mapsOf (cityEvents : List (String × List MoonEvent)) :
    String → ℕ → Option MoonEvent :=
  fun c => indexLookup (((cityEvents.find? (fun p => p.1 == c)).map Prod.snd).getD [])

/-- Source `city_names[1:]`: every configured city but the first (the master). -/
def otherCityNames : List String := (CITIES.map Prod.fst).tail

/-- The data rows of `generate_csv` once every city's events are known. -/
def csvRows {ε : Type} (L : Lib ε)
    (cityEvents : List (String × List MoonEvent)) : List (List String) :=
  (refEventsOf cityEvents).map (csvRow L (mapsOf cityEvents) otherCityNames)

/-- The `city_events` dict: `generate_moon_days` recomputed for every
configured city, in table order; a failure for any city aborts the whole
CSV generation. -/
def allCityEvents {ε : Type} (L : Lib ε) :
    List (String × City) → Except ε (List (String × List MoonEvent))
  | [] => .ok []
  | (n, c) :: rest =>
    match generate_moon_days L c with
    | .error e => .error e
    | .ok es =>
      match allCityEvents L rest with
      | .error e => .error e
      | .ok t => .ok ((n, es) :: t)

/-- Source `generate_csv()`, reduced to the list of data rows it writes. -/
def generate_csv_rows {ε : Type} (L : Lib ε) : Except ε (List (List String)) :=
  match allCityEvents L CITIES with
  | .error e => .error e
  | .ok ce => .ok (csvRows L ce)

-- =========================
-- ONE-YEAR TABLE SCRIPT (one_year_table/year_moon_days.py)
-- =========================

/-- Source `YEAR = 2026`. -/
def YEAR : ℤ := 2026

/-- Source `dt.date(YEAR, 1, 1)` as an ordinal. -/
def YEAR_START : ℤ := 739617

/-- Source `dt.date(YEAR, 12, 31)` as an ordinal (2026 is not a leap year). -/
def YEAR_END : ℤ := 739981

/-- Source `is_moon_day(date, city)`: the tithi at that date's local sunrise is
`AMAVASYA` or `PURNIMA`. -/
def is_moon_day {ε : Type} (L : Lib ε) (city : City) (date : ℤ) :
    Except ε Bool :=
  match local_sunrise L city date with
  | .error e => .error e
  | .ok sr =>
  match L.astimezone sr UTC_TZ with
  | .error e => .error e
  | .ok u =>
  match julian_day L u with
  | .error e => .error e
  | .ok jd =>
  match tithi_at_jd L jd with
  | .error e => .error e
  | .ok t => .ok (t = AMAVASYA ∨ t = PURNIMA)

/-- The accumulation loop of `moon_days_for_city`: a Python `set` of the
dates found so far. -/
def moonScan {ε : Type} (L : Lib ε) (city : City) :
    List ℤ → Finset ℤ → Except ε (Finset ℤ)
  | [], s => .ok s
  | d :: rest, s =>
    match is_moon_day L city d with
    | .error e => .error e
    | .ok b => moonScan L city rest (if b then insert d s else s)

/-- Source `moon_days_for_city(city)`: scan the configured year, return
`sorted(results)`. -/
def moon_days_for_city {ε : Type} (L : Lib ε) (city : City) :
    Except ε (List ℤ) :=
  match moonScan L city (dayRange YEAR_START YEAR_END) ∅ with
  | .error e => .error e
  | .ok s => .ok (s.sort (· ≤ ·))

/-- The probe offsets of the one-year CSV, in source order:
`for delta in (0, -1, 1, -2, 2)`. -/
def yearDeltas : List ℤ := [0, -1, 1, -2, 2]

/-- The probe loop: first offset whose date is in the city's moon-day set,
as the found date. -/
def probeNear (s : Finset ℤ) (d : ℤ) : Option ℤ :=
  (yearDeltas.find? (fun δ => decide ((d + δ) ∈ s))).map (fun δ => d + δ)

/-- One other-city cell of the one-year CSV: `"NaN"` when no moon day of
the city lies within two days, blank when the master day itself is one,
the ISO date of the first probe hit otherwise. -/
def yearCell {ε : Type} (L : Lib ε) (s : Finset ℤ) (d : ℤ) : String :=
  match probeNear s d with
  | none => "NaN"
  | some f => if f = d then "" else L.iso f

/-- The `city_days` dict of the one-year `generate_csv`: moon-day sets for
every configured city except the master. -/
def yearCityDays {ε : Type} (L : Lib ε) :
    List (String × City) → Except ε (List (String × Finset ℤ))
  | [] => .ok []
  | (n, c) :: rest =>
    if n == MASTER_CITY then yearCityDays L rest
    else
      match moon_days_for_city L c with
      | .error e => .error e
      | .ok l =>
        match yearCityDays L rest with
        | .error e => .error e
        | .ok t => .ok ((n, l.toFinset) :: t)

/-- The one-year `generate_csv()`, reduced to the list of data rows it
writes. -/
def year_csv_rows {ε : Type} (L : Lib ε) : Except ε (List (List String)) :=
  match moon_days_for_city L (((CITIES.find? (fun p => p.1 == MASTER_CITY)).map Prod.snd).getD ⟨0, 0, ""⟩) with
  | .error e => .error e
  | .ok master =>
  match yearCityDays L CITIES with
  | .error e => .error e
  | .ok cd =>
    .ok (master.map (fun d =>
      L.iso d :: cd.map (fun p => yearCell L p.2 d)))

-- =========================
-- HELPER LEMMAS
-- =========================

theorem pymodQ_nonneg (a b : ℚ) (hb : 0 < b) : 0 ≤ pymodQ a b := by
  have h := Int.floor_le (a / b)
  have : (⌊a / b⌋ : ℚ) * b ≤ a := by
    rwa [← le_div_iff₀ hb]
  unfold pymodQ
  nlinarith

theorem pymodQ_lt (a b : ℚ) (hb : 0 < b) : pymodQ a b < b := by
  have h := Int.lt_floor_add_one (a / b)
  have : a < ((⌊a / b⌋ : ℚ) + 1) * b := by
    rwa [← div_lt_iff₀ hb]
  unfold pymodQ
  nlinarith

/-- Any successfully computed tithi lies in `[1, 30]`. -/
theorem tithi_ok_range {ε : Type} (L : Lib ε) (jd : ℚ) (t : ℤ)
    (h : tithi_at_jd L jd = .ok t) : 1 ≤ t ∧ t ≤ 30 := by
  unfold tithi_at_jd at h
  cases hs : L.calc_ut jd Body.sun with
  | error e => rw [hs] at h; cases h
  | ok s =>
    cases hm : L.calc_ut jd Body.moon with
    | error e => rw [hs, hm] at h; cases h
    | ok m =>
      rw [hs, hm] at h
      cases h
      have h0 : (0 : ℚ) ≤ pymodQ (m - s) 360 := pymodQ_nonneg _ _ (by norm_num)
      have h1 : pymodQ (m - s) 360 < 360 := pymodQ_lt _ _ (by norm_num)
      constructor
      · have : (0 : ℤ) ≤ ⌊pymodQ (m - s) 360 / TITHI_DEG⌋ := by
          apply Int.floor_nonneg.2
          unfold TITHI_DEG
          positivity
        omega
      · have : ⌊pymodQ (m - s) 360 / TITHI_DEG⌋ < 30 := by
          apply Int.floor_lt.2
          unfold TITHI_DEG
          push_cast
          rw [div_lt_iff₀ (by norm_num : (0:ℚ) < 12)]
          linarith
        omega

-- =========================
-- CONCRETE WITNESS LIBRARY (all calls succeed)
-- =========================

/-- A concrete, everywhere-successful library instance used to witness
that the theorems' hypotheses are satisfiable. -/
def okLib : Lib Unit where
  julday := fun _ _ _ _ => .ok 0
  calc_ut := fun _ _ => .ok 0
  rise_trans := fun _ _ _ _ => .ok 0
  revjul := fun _ => .ok (2026, 1, 1, 0)
  localize := fun tz y m d hh mm ss => .ok ⟨y, m, d, hh, mm, ss, tz⟩
  astimezone := fun u tz => .ok { u with tz := tz }
  yearOf := fun _ => 2026
  monthOf := fun _ => 1
  dayOf := fun _ => 1
  iso := fun d => toString d

/-- The Mysuru entry of the city table, for witnesses. -/
def mysuru : City := ⟨12.2958, 76.6394, "Asia/Kolkata"⟩

-- =========================
-- C2: tithi arithmetic
-- =========================

/-- C2: whenever the ephemeris longitude queries succeed, the computed
tithi equals `⌊((moon − sun) mod 360) / 12⌋ + 1` and lies in `[1, 30]`. -/
theorem tithi_at_jd_formula_and_range {ε : Type} (L : Lib ε) (jd s m : ℚ)
    (hs : L.calc_ut jd Body.sun = .ok s)
    (hm : L.calc_ut jd Body.moon = .ok m) :
    tithi_at_jd L jd = .ok (⌊pymodQ (m - s) 360 / 12⌋ + 1) ∧
    1 ≤ ⌊pymodQ (m - s) 360 / 12⌋ + 1 ∧
    ⌊pymodQ (m - s) 360 / 12⌋ + 1 ≤ 30 := by
  have heq : tithi_at_jd L jd = .ok (⌊pymodQ (m - s) 360 / 12⌋ + 1) := by
    unfold tithi_at_jd
    rw [hs, hm]
    rfl
  refine ⟨heq, ?_, ?_⟩
  · exact (tithi_ok_range L jd _ heq).1
  · exact (tithi_ok_range L jd _ heq).2

/-- Witness for C2 at a concrete library and Julian day. -/
theorem tithi_at_jd_formula_and_range_witness :
    tithi_at_jd okLib 0 = .ok (⌊pymodQ ((0 : ℚ) - 0) 360 / 12⌋ + 1) ∧
    1 ≤ ⌊pymodQ ((0 : ℚ) - 0) 360 / 12⌋ + 1 ∧
    ⌊pymodQ ((0 : ℚ) - 0) 360 / 12⌋ + 1 ≤ 30 :=
  tithi_at_jd_formula_and_range okLib 0 0 0 rfl rfl

-- =========================
-- C1: event detection follows the spec's rule
-- =========================

/-- Modelled from the spec: the number of tithi steps from `a` forward to
`b`, "difference taken modulo 30". -/
def tithiSteps (a b : ℤ) : ℤ := (b - a).emod 30

/-- Modelled from the spec: the set of tithi values skipped between this
sunrise (tithi `t0`) and the next day's sunrise (tithi `t1`) — the values
in `1..30` that are strictly between the two along the forward cycle. -/
def skippedSetSpec (t0 t1 : ℤ) : Finset ℤ :=
  (Finset.Icc 1 30).filter
    (fun v => 1 ≤ tithiSteps t0 v ∧ tithiSteps t0 v < tithiSteps t0 t1)

/-- Modelled from the spec: "If today's tithi equals 15, emit Purnima; if
30, emit Amavasya.  Otherwise, if the tithi advanced by more than one step
(a day was skipped), check whether 15 or 30 falls among the skipped
values and emit the corresponding kshaya kind.  Otherwise no event." -/
def detectEventSpec (t0 t1 : ℤ) : Option ℤ :=
  if t0 = PURNIMA then some KIND_PURNIMA
  else if t0 = AMAVASYA then some KIND_AMAVASYA
  else if 1 < tithiSteps t0 t1 then
    if PURNIMA ∈ skippedSetSpec t0 t1 then some KIND_KSHAYA_PURNIMA
    else if AMAVASYA ∈ skippedSetSpec t0 t1 then some KIND_KSHAYA_AMAVASYA
    else none
  else none

set_option maxHeartbeats 2000000 in
/-- On the reachable tithi values `1..30`, the source's branch structure
agrees with the spec's rule. -/
theorem detectRule_eq_spec : ∀ t0 ∈ Finset.Icc (1:ℤ) 30,
    ∀ t1 ∈ Finset.Icc (1:ℤ) 30, detectRule t0 t1 = detectEventSpec t0 t1 := by
  decide

/-- C1: whenever the pipeline's calls succeed and yield sunrise tithis
`t0` (today) and `t1` (tomorrow), the event detector returns exactly what
the spec's rule prescribes, and that result never lies outside the closed
four-kind set. -/
theorem detect_event_follows_spec {ε : Type} (L : Lib ε) (city : City)
    (d : ℤ) (sr0 sr1 u0 u1 : PyDateTime) (jd0 jd1 : ℚ) (t0 t1 : ℤ)
    (h1 : local_sunrise L city d = .ok sr0)
    (h2 : local_sunrise L city (d + 1) = .ok sr1)
    (h3 : L.astimezone sr0 UTC_TZ = .ok u0)
    (h4 : julian_day L u0 = .ok jd0)
    (h5 : L.astimezone sr1 UTC_TZ = .ok u1)
    (h6 : julian_day L u1 = .ok jd1)
    (h7 : tithi_at_jd L jd0 = .ok t0)
    (h8 : tithi_at_jd L jd1 = .ok t1) :
    detect_event L city d = .ok (detectEventSpec t0 t1) ∧
    ∀ k, detectEventSpec t0 t1 = some k →
      k = KIND_PURNIMA ∨ k = KIND_AMAVASYA ∨
      k = KIND_KSHAYA_PURNIMA ∨ k = KIND_KSHAYA_AMAVASYA := by
  have ht0 := tithi_ok_range L jd0 t0 h7
  have ht1 := tithi_ok_range L jd1 t1 h8
  have hr : detect_event L city d = .ok (detectRule t0 t1) := by
    simp only [detect_event, h1, h2, h3, h4, h5, h6, h7, h8]
  constructor
  · rw [hr,
      detectRule_eq_spec t0 (Finset.mem_Icc.2 ⟨ht0.1, ht0.2⟩)
        t1 (Finset.mem_Icc.2 ⟨ht1.1, ht1.2⟩)]
  · intro k hk
    unfold detectEventSpec at hk
    split_ifs at hk <;>
      simp only [Option.some.injEq] at hk <;>
      omega

/-- Witness for C1: a concrete successful run of the pipeline (both
sunrise tithis evaluate to 1, so no event is due). -/
theorem detect_event_follows_spec_witness :
    detect_event okLib mysuru 0 = .ok (detectEventSpec 1 1) ∧
    ∀ k, detectEventSpec 1 1 = some k →
      k = KIND_PURNIMA ∨ k = KIND_AMAVASYA ∨
      k = KIND_KSHAYA_PURNIMA ∨ k = KIND_KSHAYA_AMAVASYA :=
  detect_event_follows_spec okLib mysuru 0
    ⟨2026, 1, 1, 0, 0, 0, "Asia/Kolkata"⟩
    ⟨2026, 1, 1, 0, 0, 0, "Asia/Kolkata"⟩
    ⟨2026, 1, 1, 0, 0, 0, UTC_TZ⟩
    ⟨2026, 1, 1, 0, 0, 0, UTC_TZ⟩
    0 0 1 1
    (by simp [local_sunrise, okLib, mysuru, julian_day, pytrunc, UTC_TZ])
    (by simp [local_sunrise, okLib, mysuru, julian_day, pytrunc, UTC_TZ])
    rfl rfl rfl rfl
    (by simp [tithi_at_jd, okLib, pymodQ, TITHI_DEG])
    (by simp [tithi_at_jd, okLib, pymodQ, TITHI_DEG])

-- =========================
-- C8: Purnima-related outcomes take priority
-- =========================

/-- C8: a sunrise tithi of 15 yields Purnima for every value of the next
sunrise's tithi (the skip interval is never examined), and when both 15
and 30 are among the skipped values the detector reports Kshaya-Purnima,
never the skipped Amavasya. -/
theorem detectRule_purnima_priority :
    (∀ t1 : ℤ, detectRule PURNIMA t1 = some KIND_PURNIMA) ∧
    (∀ t0 t1 : ℤ, t0 ≠ PURNIMA → t0 ≠ AMAVASYA →
      1 < (t1 - t0).emod 30 →
      PURNIMA ∈ skippedList t0 t1 → AMAVASYA ∈ skippedList t0 t1 →
      detectRule t0 t1 = some KIND_KSHAYA_PURNIMA) := by
  constructor
  · intro t1
    unfold detectRule
    simp
  · intro t0 t1 h15 h30 hdiff hp _
    unfold detectRule
    rw [if_neg h15, if_neg h30, if_pos hdiff, if_pos hp]

/-- Witness for C8: tithi 15 at sunrise with an arbitrary next tithi, and
the pair `t0 = 10`, `t1 = 9` whose skip interval contains both 15 and
30. -/
theorem detectRule_purnima_priority_witness :
    detectRule PURNIMA 7 = some KIND_PURNIMA ∧
    detectRule 10 9 = some KIND_KSHAYA_PURNIMA :=
  ⟨detectRule_purnima_priority.1 7,
   detectRule_purnima_priority.2 10 9 (by decide) (by decide) (by decide)
     (by decide) (by decide)⟩

-- =========================
-- C3: scan invariants
-- =========================

/-- Invariant of the `generate_moon_days` loop: if the accumulated events
are contiguously indexed, pairwise at least two days apart, and the carried
`last_date` matches the last appended event, the loop's successful result
keeps the first two properties. -/
theorem scanDays_props {ε : Type} (L : Lib ε) (city : City) :
    ∀ (days : List ℤ) (events : List MoonEvent) (last : Option ℤ)
      (out : List MoonEvent),
    events.map (fun e => e.index) = List.range events.length →
    List.Chain' (fun a b => a.date + 2 ≤ b.date) events →
    (∀ e ∈ events.getLast?, last = some e.date) →
    scanDays L city days events last = .ok out →
    out.map (fun e => e.index) = List.range out.length ∧
    List.Chain' (fun a b => a.date + 2 ≤ b.date) out := by
  intro days
  induction days with
  | nil =>
    intro events last out h1 h2 _ h4
    unfold scanDays at h4
    cases h4
    exact ⟨h1, h2⟩
  | cons d rest ih =>
    intro events last out h1 h2 h3 h4
    unfold scanDays at h4
    cases hdet : detect_event L city d with
    | error e => rw [hdet] at h4; cases h4
    | ok k =>
      rw [hdet] at h4
      cases k with
      | none => exact ih events last out h1 h2 h3 h4
      | some kind =>
        cases hg : gapOk last d with
        | false =>
          rw [hg] at h4
          simp only [Bool.false_eq_true, if_false] at h4
          exact ih events last out h1 h2 h3 h4
        | true =>
          rw [hg] at h4
          simp only [if_true] at h4
          refine ih _ _ out ?_ ?_ ?_ h4
          · rw [List.map_append, h1, List.length_append]
            simp [List.range_succ]
          · rw [List.chain'_append]
            refine ⟨h2, List.chain'_singleton _, ?_⟩
            intro x hx y hy
            simp only [List.head?_cons, Option.mem_def, Option.some.injEq] at hy
            subst hy
            have hlast := h3 x hx
            rw [hlast] at hg
            unfold gapOk at hg
            simp only [decide_eq_true_eq] at hg
            simpa using by omega
          · intro e he
            rw [List.getLast?_concat] at he
            simp only [Option.mem_def, Option.some.injEq] at he
            subst he
            rfl

/-- C3: on any successful full-range scan, indices are exactly
`0, 1, 2, ...` in list order, consecutive events are at least two calendar
days apart, and dates are strictly increasing (insertion order is
chronological order). -/
theorem generate_moon_days_invariants {ε : Type} (L : Lib ε) (city : City) :
    exceptSat (generate_moon_days L city) (fun es =>
      es.map (fun e => e.index) = List.range es.length ∧
      List.Chain' (fun a b => a.date + 2 ≤ b.date) es ∧
      List.Chain' (fun a b => a.date < b.date) es) := by
  unfold generate_moon_days
  cases hscan : scanDays L city (dayRange START_DATE END_DATE) [] none with
  | error e => simp [exceptSat]
  | ok out =>
    have h := scanDays_props L city (dayRange START_DATE END_DATE) [] none out
      (by simp) (by simp) (by simp) hscan
    simp only [exceptSat]
    exact ⟨h.1, h.2, h.2.imp (fun hab => by omega)⟩

-- =========================
-- C5: error propagation
-- =========================

/-- The scanned day range starts with its first day. -/
theorem dayRange_cons (a b : ℤ) (h : a ≤ b) :
    dayRange a b = a :: dayRange (a + 1) b := by
  unfold dayRange
  have h1 : (b + 1 - a).toNat = (b + 1 - (a + 1)).toNat + 1 := by omega
  rw [h1, List.range_succ_eq_map]
  simp only [List.map_cons, List.map_map, List.cons.injEq]
  refine ⟨by simp, ?_⟩
  apply List.map_congr_left
  intro i _
  simp only [Function.comp_apply, Int.ofNat_eq_coe]
  push_cast
  ring

/-- C5: no stage of the pipeline catches errors — a failing library call
(position query, Julian-day conversion, rise solve, calendar conversion,
timezone conversion) makes `tithi_at_jd`, `local_sunrise`, `detect_event`
and the full scan return exactly that error, including every call made by
`detect_event` itself after the two sunrises, and a scan that fails
appends no event at all. -/
theorem pipeline_error_propagation {ε : Type} (L : Lib ε) (city : City)
    (e : ε) :
    (∀ jd, L.calc_ut jd Body.sun = .error e →
      tithi_at_jd L jd = .error e) ∧
    (∀ jd s, L.calc_ut jd Body.sun = .ok s →
      L.calc_ut jd Body.moon = .error e → tithi_at_jd L jd = .error e) ∧
    (∀ d, L.localize city.tz (L.yearOf d) (L.monthOf d) (L.dayOf d) 0 0 0
        = .error e → local_sunrise L city d = .error e) ∧
    (∀ d lm um,
      L.localize city.tz (L.yearOf d) (L.monthOf d) (L.dayOf d) 0 0 0
        = .ok lm →
      L.astimezone lm UTC_TZ = .ok um →
      julian_day L um = .error e → local_sunrise L city d = .error e) ∧
    (∀ d lm um jd0,
      L.localize city.tz (L.yearOf d) (L.monthOf d) (L.dayOf d) 0 0 0
        = .ok lm →
      L.astimezone lm UTC_TZ = .ok um →
      julian_day L um = .ok jd0 →
      L.rise_trans jd0 (city.lon, city.lat, 0) 0 0 = .error e →
      local_sunrise L city d = .error e) ∧
    (∀ d lm um jd0 jdr,
      L.localize city.tz (L.yearOf d) (L.monthOf d) (L.dayOf d) 0 0 0
        = .ok lm →
      L.astimezone lm UTC_TZ = .ok um →
      julian_day L um = .ok jd0 →
      L.rise_trans jd0 (city.lon, city.lat, 0) 0 0 = .ok jdr →
      L.revjul jdr = .error e → local_sunrise L city d = .error e) ∧
    (∀ d, local_sunrise L city d = .error e →
      detect_event L city d = .error e) ∧
    (∀ d sr0, local_sunrise L city d = .ok sr0 →
      local_sunrise L city (d + 1) = .error e →
      detect_event L city d = .error e) ∧
    (∀ d sr0 sr1, local_sunrise L city d = .ok sr0 →
      local_sunrise L city (d + 1) = .ok sr1 →
      L.astimezone sr0 UTC_TZ = .error e →
      detect_event L city d = .error e) ∧
    (∀ d sr0 sr1 u0, local_sunrise L city d = .ok sr0 →
      local_sunrise L city (d + 1) = .ok sr1 →
      L.astimezone sr0 UTC_TZ = .ok u0 →
      julian_day L u0 = .error e →
      detect_event L city d = .error e) ∧
    (∀ d sr0 sr1 u0 jd0, local_sunrise L city d = .ok sr0 →
      local_sunrise L city (d + 1) = .ok sr1 →
      L.astimezone sr0 UTC_TZ = .ok u0 →
      julian_day L u0 = .ok jd0 →
      L.astimezone sr1 UTC_TZ = .error e →
      detect_event L city d = .error e) ∧
    (∀ d sr0 sr1 u0 jd0 u1, local_sunrise L city d = .ok sr0 →
      local_sunrise L city (d + 1) = .ok sr1 →
      L.astimezone sr0 UTC_TZ = .ok u0 →
      julian_day L u0 = .ok jd0 →
      L.astimezone sr1 UTC_TZ = .ok u1 →
      julian_day L u1 = .error e →
      detect_event L city d = .error e) ∧
    (∀ d sr0 sr1 u0 jd0 u1 jd1, local_sunrise L city d = .ok sr0 →
      local_sunrise L city (d + 1) = .ok sr1 →
      L.astimezone sr0 UTC_TZ = .ok u0 →
      julian_day L u0 = .ok jd0 →
      L.astimezone sr1 UTC_TZ = .ok u1 →
      julian_day L u1 = .ok jd1 →
      tithi_at_jd L jd0 = .error e →
      detect_event L city d = .error e) ∧
    (∀ d sr0 sr1 u0 jd0 u1 jd1 t0, local_sunrise L city d = .ok sr0 →
      local_sunrise L city (d + 1) = .ok sr1 →
      L.astimezone sr0 UTC_TZ = .ok u0 →
      julian_day L u0 = .ok jd0 →
      L.astimezone sr1 UTC_TZ = .ok u1 →
      julian_day L u1 = .ok jd1 →
      tithi_at_jd L jd0 = .ok t0 →
      tithi_at_jd L jd1 = .error e →
      detect_event L city d = .error e) ∧
    (∀ d rest events last, detect_event L city d = .error e →
      scanDays L city (d :: rest) events last = .error e) ∧
    (detect_event L city START_DATE = .error e →
      generate_moon_days L city = .error e) := by
  refine ⟨?_, ?_, ?_, ?_, ?_, ?_, ?_, ?_, ?_, ?_, ?_, ?_, ?_, ?_, ?_, ?_⟩
  · intro jd h
    simp only [tithi_at_jd, h]
  · intro jd s h1 h2
    simp only [tithi_at_jd, h1, h2]
  · intro d h
    simp only [local_sunrise, h]
  · intro d lm um h1 h2 h3
    simp only [local_sunrise, h1, h2, h3]
  · intro d lm um jd0 h1 h2 h3 h4
    simp only [local_sunrise, h1, h2, h3, h4]
  · intro d lm um jd0 jdr h1 h2 h3 h4 h5
    simp only [local_sunrise, h1, h2, h3, h4, h5]
  · intro d h
    simp only [detect_event, h]
  · intro d sr0 h1 h2
    simp only [detect_event, h1, h2]
  · intro d sr0 sr1 h1 h2 h3
    simp only [detect_event, h1, h2, h3]
  · intro d sr0 sr1 u0 h1 h2 h3 h4
    simp only [detect_event, h1, h2, h3, h4]
  · intro d sr0 sr1 u0 jd0 h1 h2 h3 h4 h5
    simp only [detect_event, h1, h2, h3, h4, h5]
  · intro d sr0 sr1 u0 jd0 u1 h1 h2 h3 h4 h5 h6
    simp only [detect_event, h1, h2, h3, h4, h5, h6]
  · intro d sr0 sr1 u0 jd0 u1 jd1 h1 h2 h3 h4 h5 h6 h7
    simp only [detect_event, h1, h2, h3, h4, h5, h6, h7]
  · intro d sr0 sr1 u0 jd0 u1 jd1 t0 h1 h2 h3 h4 h5 h6 h7 h8
    simp only [detect_event, h1, h2, h3, h4, h5, h6, h7, h8]
  · intro d rest events last h
    simp only [scanDays, h]
  · intro h
    unfold generate_moon_days
    rw [dayRange_cons START_DATE END_DATE (by decide)]
    simp only [scanDays, h]

/-- A library whose every fallible call raises error `7`. -/
def failAllLib : Lib ℤ where
  julday := fun _ _ _ _ => .error 7
  calc_ut := fun _ _ => .error 7
  rise_trans := fun _ _ _ _ => .error 7
  revjul := fun _ => .error 7
  localize := fun _ _ _ _ _ _ _ => .error 7
  astimezone := fun _ _ => .error 7
  yearOf := fun _ => 0
  monthOf := fun _ => 0
  dayOf := fun _ => 0
  iso := fun _ => ""

/-- A library where only the moon-position query fails. -/
def failMoonLib : Lib ℤ :=
  { failAllLib with
    calc_ut := fun _ b => match b with | .sun => .ok 0 | .moon => .error 7 }

/-- A library where only the Julian-day conversion fails. -/
def failJuldayLib : Lib ℤ :=
  { failAllLib with
    localize := fun tz y m d hh mm ss => .ok ⟨y, m, d, hh, mm, ss, tz⟩
    astimezone := fun u tz => .ok { u with tz := tz } }

/-- A library where only the rise/transit solve fails. -/
def failRiseLib : Lib ℤ :=
  { failJuldayLib with julday := fun _ _ _ _ => .ok 0 }

/-- A library where only the Julian-day-to-calendar conversion fails. -/
def failRevjulLib : Lib ℤ :=
  { failRiseLib with rise_trans := fun _ _ _ _ => .ok 0 }

/-- A library where the sunrise pipeline succeeds on day `0` and fails on
every other day. -/
def failDay2Lib : Lib ℤ :=
  { failRevjulLib with
    revjul := fun _ => .ok (0, 0, 0, 0)
    yearOf := fun d => d
    localize := fun tz y m d hh mm ss =>
      if y = 0 then .ok ⟨y, m, d, hh, mm, ss, tz⟩ else .error 7 }

/-- A library that threads the date through the sunrise pipeline: the
Julian day equals the localized year, and `revjul` reports year 0 for
Julian day 0 and year 1 otherwise, so the two sunrises of `detect_event`
at date 0 are distinct values. -/
def chainLib : Lib ℤ where
  julday := fun y _ _ _ => .ok (y : ℚ)
  calc_ut := fun _ _ => .ok 0
  rise_trans := fun jd _ _ _ => .ok jd
  revjul := fun jd => .ok (if jd = 0 then 0 else 1, 0, 0, 0)
  localize := fun _ y m d hh mm ss => .ok ⟨y, m, d, hh, mm, ss, "LOC"⟩
  astimezone := fun u tz => .ok { u with tz := tz }
  yearOf := fun d => d
  monthOf := fun _ => 0
  dayOf := fun _ => 0
  iso := fun _ => ""

/-- A library where both sunrises succeed but converting a sunrise result
(timezone field of the scan city) back to UTC fails. -/
def failAsti0Lib : Lib ℤ :=
  { chainLib with
    astimezone := fun u tz =>
      if u.tz = "Asia/Kolkata" then .error 7 else .ok { u with tz := tz } }

/-- A library where both sunrises succeed but `julian_day` on the
converted sunrise (year 2, produced only by `revjul`) fails. -/
def failJulday0Lib : Lib ℤ :=
  { chainLib with
    julday := fun y _ _ _ => if y = 2 then .error 7 else .ok (y : ℚ)
    revjul := fun _ => .ok (2, 0, 0, 0) }

/-- A library where both sunrises succeed, the first sunrise converts to
UTC, but converting the second sunrise (year 1) to UTC fails. -/
def failAsti1Lib : Lib ℤ :=
  { chainLib with
    astimezone := fun u tz =>
      if u.year = 1 ∧ u.tz = "Asia/Kolkata" ∧ tz = UTC_TZ then .error 7
      else .ok { u with tz := tz } }

/-- A library where both sunrises succeed (`revjul` reports month 5,
unlike the month-0 local midnights), the first converted sunrise yields a
Julian day, but `julian_day` of the second converted sunrise (year 1,
month 5) fails. -/
def failJulday1Lib : Lib ℤ :=
  { chainLib with
    julday := fun y m _ _ =>
      if y = 1 ∧ m = 5 then .error 7 else .ok (y : ℚ)
    revjul := fun jd => .ok (if jd = 0 then 0 else 1, 5, 0, 0) }

/-- A library where the whole sunrise pipeline succeeds and only the
position query — hence the tithi — fails. -/
def failTithi0Lib : Lib ℤ :=
  { chainLib with calc_ut := fun _ _ => .error 7 }

/-- A library where the position query succeeds at Julian day 0 (the
first sunrise) and fails at every other Julian day (the second). -/
def failTithi1Lib : Lib ℤ :=
  { chainLib with
    calc_ut := fun jd _ => if jd = 0 then .ok 0 else .error 7 }

/-- Witness for C5: every listed failure mode, exercised on a concrete
library and date — including a position-query failure that surfaces
through `tithi_at_jd`, `detect_event` and the scan. -/
theorem pipeline_error_propagation_witness :
    tithi_at_jd failAllLib 0 = .error 7 ∧
    tithi_at_jd failMoonLib 0 = .error 7 ∧
    local_sunrise failAllLib mysuru 0 = .error 7 ∧
    local_sunrise failJuldayLib mysuru 0 = .error 7 ∧
    local_sunrise failRiseLib mysuru 0 = .error 7 ∧
    local_sunrise failRevjulLib mysuru 0 = .error 7 ∧
    detect_event failAllLib mysuru 0 = .error 7 ∧
    detect_event failDay2Lib mysuru 0 = .error 7 ∧
    detect_event failAsti0Lib mysuru 0 = .error 7 ∧
    detect_event failJulday0Lib mysuru 0 = .error 7 ∧
    detect_event failAsti1Lib mysuru 0 = .error 7 ∧
    detect_event failJulday1Lib mysuru 0 = .error 7 ∧
    detect_event failTithi0Lib mysuru 0 = .error 7 ∧
    detect_event failTithi1Lib mysuru 0 = .error 7 ∧
    scanDays failTithi0Lib mysuru [0] [] none = .error 7 ∧
    generate_moon_days failAllLib mysuru = .error 7 := by
  obtain ⟨a1, -, a3, -, -, -, a7, -, -, -, -, -, -, -, a15, a16⟩ :=
    pipeline_error_propagation failAllLib mysuru 7
  obtain ⟨-, b2, -⟩ := pipeline_error_propagation failMoonLib mysuru 7
  obtain ⟨-, -, -, c4, -⟩ := pipeline_error_propagation failJuldayLib mysuru 7
  obtain ⟨-, -, -, -, d5, -⟩ := pipeline_error_propagation failRiseLib mysuru 7
  obtain ⟨-, -, -, -, -, e6, -⟩ :=
    pipeline_error_propagation failRevjulLib mysuru 7
  obtain ⟨-, -, -, -, -, -, -, f8, -⟩ :=
    pipeline_error_propagation failDay2Lib mysuru 7
  obtain ⟨-, -, -, -, -, -, -, -, g9, -⟩ :=
    pipeline_error_propagation failAsti0Lib mysuru 7
  obtain ⟨-, -, -, -, -, -, -, -, -, g10, -⟩ :=
    pipeline_error_propagation failJulday0Lib mysuru 7
  obtain ⟨-, -, -, -, -, -, -, -, -, -, g11, -⟩ :=
    pipeline_error_propagation failAsti1Lib mysuru 7
  obtain ⟨-, -, -, -, -, -, -, -, -, -, -, g12, -⟩ :=
    pipeline_error_propagation failJulday1Lib mysuru 7
  obtain ⟨-, -, -, -, -, -, -, -, -, -, -, -, g13, -, g15, -⟩ :=
    pipeline_error_propagation failTithi0Lib mysuru 7
  obtain ⟨-, -, -, -, -, -, -, -, -, -, -, -, -, g14, -⟩ :=
    pipeline_error_propagation failTithi1Lib mysuru 7
  have hsun : local_sunrise failAllLib mysuru 0 = .error 7 := a3 0 rfl
  have hdet : detect_event failAllLib mysuru 0 = .error 7 := a7 0 hsun
  have hdetStart : detect_event failAllLib mysuru START_DATE = .error 7 :=
    a7 START_DATE (a3 START_DATE rfl)
  have hchain0 : local_sunrise chainLib mysuru 0 =
      .ok ⟨0, 0, 0, 0, 0, 0, "Asia/Kolkata"⟩ := by
    simp [local_sunrise, chainLib, julian_day, pytrunc, UTC_TZ, mysuru]
  have hchain1 : local_sunrise chainLib mysuru 1 =
      .ok ⟨1, 0, 0, 0, 0, 0, "Asia/Kolkata"⟩ := by
    simp [local_sunrise, chainLib, julian_day, pytrunc, UTC_TZ, mysuru]
  have hT0det : detect_event failTithi0Lib mysuru 0 = .error 7 :=
    g13 0 ⟨0, 0, 0, 0, 0, 0, "Asia/Kolkata"⟩ ⟨1, 0, 0, 0, 0, 0, "Asia/Kolkata"⟩
      ⟨0, 0, 0, 0, 0, 0, UTC_TZ⟩ 0 ⟨1, 0, 0, 0, 0, 0, UTC_TZ⟩ 1
      (by simp [local_sunrise, failTithi0Lib, chainLib, julian_day, pytrunc,
        UTC_TZ, mysuru])
      (by simp [local_sunrise, failTithi0Lib, chainLib, julian_day, pytrunc,
        UTC_TZ, mysuru])
      rfl (by simp [julian_day, failTithi0Lib, chainLib]) rfl
      (by simp [julian_day, failTithi0Lib, chainLib]) rfl
  refine ⟨a1 0 rfl, b2 0 0 rfl rfl, hsun, ?_, ?_, ?_, hdet, ?_, ?_, ?_, ?_,
    ?_, hT0det, ?_, g15 0 [] [] none hT0det, a16 hdetStart⟩
  · exact c4 0 ⟨0, 0, 0, 0, 0, 0, "Asia/Kolkata"⟩
      ⟨0, 0, 0, 0, 0, 0, UTC_TZ⟩ rfl rfl rfl
  · exact d5 0 ⟨0, 0, 0, 0, 0, 0, "Asia/Kolkata"⟩
      ⟨0, 0, 0, 0, 0, 0, UTC_TZ⟩ 0 rfl rfl rfl rfl
  · exact e6 0 ⟨0, 0, 0, 0, 0, 0, "Asia/Kolkata"⟩
      ⟨0, 0, 0, 0, 0, 0, UTC_TZ⟩ 0 0 rfl rfl rfl rfl rfl
  · exact f8 0 ⟨0, 0, 0, 0, 0, 0, "Asia/Kolkata"⟩
      (by simp [local_sunrise, failDay2Lib, failRevjulLib, failRiseLib,
        failJuldayLib, failAllLib, julian_day, pytrunc, UTC_TZ, mysuru])
      (by simp [local_sunrise, failDay2Lib, failRevjulLib, failRiseLib,
        failJuldayLib, failAllLib, julian_day, mysuru])
  · exact g9 0 ⟨0, 0, 0, 0, 0, 0, "Asia/Kolkata"⟩
      ⟨1, 0, 0, 0, 0, 0, "Asia/Kolkata"⟩
      (by simp [local_sunrise, failAsti0Lib, chainLib, julian_day, pytrunc,
        UTC_TZ, mysuru])
      (by simp [local_sunrise, failAsti0Lib, chainLib, julian_day, pytrunc,
        UTC_TZ, mysuru])
      (by simp [failAsti0Lib, chainLib])
  · exact g10 0 ⟨2, 0, 0, 0, 0, 0, "Asia/Kolkata"⟩
      ⟨2, 0, 0, 0, 0, 0, "Asia/Kolkata"⟩ ⟨2, 0, 0, 0, 0, 0, UTC_TZ⟩
      (by simp [local_sunrise, failJulday0Lib, chainLib, julian_day, pytrunc,
        UTC_TZ, mysuru])
      (by simp [local_sunrise, failJulday0Lib, chainLib, julian_day, pytrunc,
        UTC_TZ, mysuru])
      rfl (by simp [julian_day, failJulday0Lib, chainLib])
  · exact g11 0 ⟨0, 0, 0, 0, 0, 0, "Asia/Kolkata"⟩
      ⟨1, 0, 0, 0, 0, 0, "Asia/Kolkata"⟩ ⟨0, 0, 0, 0, 0, 0, UTC_TZ⟩ 0
      (by simp [local_sunrise, failAsti1Lib, chainLib, julian_day, pytrunc,
        UTC_TZ, mysuru])
      (by simp [local_sunrise, failAsti1Lib, chainLib, julian_day, pytrunc,
        UTC_TZ, mysuru])
      (by simp [failAsti1Lib, chainLib, UTC_TZ])
      (by simp [julian_day, failAsti1Lib, chainLib])
      (by simp [failAsti1Lib, chainLib, UTC_TZ])
  · exact g12 0 ⟨0, 5, 0, 0, 0, 0, "Asia/Kolkata"⟩
      ⟨1, 5, 0, 0, 0, 0, "Asia/Kolkata"⟩ ⟨0, 5, 0, 0, 0, 0, UTC_TZ⟩ 0
      ⟨1, 5, 0, 0, 0, 0, UTC_TZ⟩
      (by simp [local_sunrise, failJulday1Lib, chainLib, julian_day, pytrunc,
        UTC_TZ, mysuru])
      (by simp [local_sunrise, failJulday1Lib, chainLib, julian_day, pytrunc,
        UTC_TZ, mysuru])
      rfl (by simp [julian_day, failJulday1Lib, chainLib]) rfl
      (by simp [julian_day, failJulday1Lib, chainLib])
  · exact g14 0 ⟨0, 0, 0, 0, 0, 0, "Asia/Kolkata"⟩
      ⟨1, 0, 0, 0, 0, 0, "Asia/Kolkata"⟩ ⟨0, 0, 0, 0, 0, 0, UTC_TZ⟩ 0
      ⟨1, 0, 0, 0, 0, 0, UTC_TZ⟩ 1 1
      (by simp [local_sunrise, failTithi1Lib, chainLib, julian_day, pytrunc,
        UTC_TZ, mysuru])
      (by simp [local_sunrise, failTithi1Lib, chainLib, julian_day, pytrunc,
        UTC_TZ, mysuru])
      rfl (by simp [julian_day, failTithi1Lib, chainLib]) rfl
      (by simp [julian_day, failTithi1Lib, chainLib])
      (by simp [tithi_at_jd, failTithi1Lib, chainLib, pymodQ, TITHI_DEG])
      (by simp [tithi_at_jd, failTithi1Lib, chainLib])

-- =========================
-- C6: local sunrise pipeline
-- =========================

/-- Truncation equals floor on nonnegative arguments. -/
theorem pytrunc_eq_floor (q : ℚ) (h : 0 ≤ q) : pytrunc q = ⌊q⌋ := by
  unfold pytrunc
  rw [if_neg (not_lt.2 h)]

/-- Modelled from the spec: convert that date's local midnight (in the
city's time zone) to UTC, pass the resulting Julian day to the rise/
transit solver asking for the next sunrise, convert the solver's Julian
day back to a UTC date-time — taking the whole hours, then whole minutes,
then whole seconds of the fractional hour — and return that instant in
the city's local time zone. -/
def localSunriseSpec {ε : Type} (L : Lib ε) (city : City) (date : ℤ) :
    Except ε PyDateTime :=
  match L.localize city.tz (L.yearOf date) (L.monthOf date) (L.dayOf date)
      0 0 0 with
  | .error e => .error e
  | .ok local_midnight =>
  match L.astimezone local_midnight UTC_TZ with
  | .error e => .error e
  | .ok utc_midnight =>
  match julian_day L utc_midnight with
  | .error e => .error e
  | .ok jd0 =>
  match L.rise_trans jd0 (city.lon, city.lat, 0) 0 0 with
  | .error e => .error e
  | .ok jd_rise =>
  match L.revjul jd_rise with
  | .error e => .error e
  | .ok (y, m, d, h) =>
    L.astimezone
      ⟨y, m, d, ⌊h⌋, ⌊(h - (⌊h⌋ : ℚ)) * 60⌋,
        ⌊((h - (⌊h⌋ : ℚ)) * 60 - (⌊(h - (⌊h⌋ : ℚ)) * 60⌋ : ℚ)) * 60⌋,
        UTC_TZ⟩ city.tz

/-- C6: whenever the solver reports a nonnegative fractional hour (as
`swe.revjul` always does), `local_sunrise` is exactly the spec's pipeline:
local midnight → UTC → Julian day → next-sunrise solve → UTC date-time
with the fractional hour truncated to hours, minutes and seconds → the
city's local time. -/
theorem local_sunrise_follows_spec {ε : Type} (L : Lib ε) (city : City)
    (date : ℤ)
    (hrev : ∀ jd y m d h, L.revjul jd = .ok (y, m, d, h) → 0 ≤ h) :
    local_sunrise L city date = localSunriseSpec L city date := by
  cases h1 : L.localize city.tz (L.yearOf date) (L.monthOf date)
      (L.dayOf date) 0 0 0 with
  | error e => simp only [local_sunrise, localSunriseSpec, h1]
  | ok lm =>
  cases h2 : L.astimezone lm UTC_TZ with
  | error e => simp only [local_sunrise, localSunriseSpec, h1, h2]
  | ok um =>
  cases h3 : julian_day L um with
  | error e => simp only [local_sunrise, localSunriseSpec, h1, h2, h3]
  | ok jd0 =>
  cases h4 : L.rise_trans jd0 (city.lon, city.lat, 0) 0 0 with
  | error e => simp only [local_sunrise, localSunriseSpec, h1, h2, h3, h4]
  | ok jdr =>
  cases h5 : L.revjul jdr with
  | error e => simp only [local_sunrise, localSunriseSpec, h1, h2, h3, h4, h5]
  | ok v =>
    obtain ⟨y, m, d, h⟩ := v
    have hh0 : 0 ≤ h := hrev jdr y m d h h5
    have e1 : pytrunc h = ⌊h⌋ := pytrunc_eq_floor h hh0
    have hm0 : (0 : ℚ) ≤ (h - (⌊h⌋ : ℚ)) * 60 :=
      mul_nonneg (sub_nonneg.2 (Int.floor_le h)) (by norm_num)
    have e2 : pytrunc ((h - (⌊h⌋ : ℚ)) * 60) = ⌊(h - (⌊h⌋ : ℚ)) * 60⌋ :=
      pytrunc_eq_floor _ hm0
    have hs0 : (0 : ℚ) ≤
        ((h - (⌊h⌋ : ℚ)) * 60 - (⌊(h - (⌊h⌋ : ℚ)) * 60⌋ : ℚ)) * 60 :=
      mul_nonneg (sub_nonneg.2 (Int.floor_le _)) (by norm_num)
    have e3 := pytrunc_eq_floor _ hs0
    simp only [local_sunrise, localSunriseSpec, h1, h2, h3, h4, h5, e1, e2, e3]

/-- Witness for C6 at a concrete library, city and date. -/
theorem local_sunrise_follows_spec_witness :
    local_sunrise okLib mysuru 3 = localSunriseSpec okLib mysuru 3 :=
  local_sunrise_follows_spec okLib mysuru 3
    (by
      intro jd y m d h hx
      simp only [okLib, Except.ok.injEq, Prod.mk.injEq] at hx
      exact hx.2.2.2.le)

-- =========================
-- C7: one-year table moon days
-- =========================

/-- Membership in the scanned day range. -/
theorem mem_dayRange (a b d : ℤ) : d ∈ dayRange a b ↔ a ≤ d ∧ d ≤ b := by
  unfold dayRange
  simp only [List.mem_map, List.mem_range, Int.ofNat_eq_coe]
  constructor
  · rintro ⟨i, hi, rfl⟩
    omega
  · rintro ⟨h1, h2⟩
    exact ⟨(d - a).toNat, by omega, by omega⟩

/-- The accumulated set of the `moon_days_for_city` loop: exactly the
starting set plus the processed days whose sunrise tithi is 15 or 30. -/
theorem moonScan_mem {ε : Type} (L : Lib ε) (city : City) :
    ∀ (days : List ℤ) (s out : Finset ℤ),
    moonScan L city days s = .ok out →
    ∀ d, d ∈ out ↔ d ∈ s ∨ (d ∈ days ∧ is_moon_day L city d = .ok true) := by
  intro days
  induction days with
  | nil =>
    intro s out h d
    unfold moonScan at h
    cases h
    simp
  | cons d0 rest ih =>
    intro s out h d
    unfold moonScan at h
    cases hb : is_moon_day L city d0 with
    | error e => rw [hb] at h; cases h
    | ok b =>
      rw [hb] at h
      cases b with
      | true =>
        have := ih (insert d0 s) out h d
        by_cases hd : d = d0
        · subst hd
          simp [this, hb]
        · simp only [this, Finset.mem_insert, List.mem_cons]
          constructor
          · rintro ((rfl | hs) | hr)
            · exact .inr ⟨.inl rfl, hb⟩
            · exact .inl hs
            · exact .inr ⟨.inr hr.1, hr.2⟩
          · rintro (hs | ⟨rfl | hr, hp⟩)
            · exact .inl (.inr hs)
            · exact .inl (.inl rfl)
            · exact .inr ⟨hr, hp⟩
      | false =>
        have := ih s out h d
        by_cases hd : d = d0
        · subst hd
          simp [this, hb]
        · simp only [this, List.mem_cons]
          constructor
          · rintro (hs | hr)
            · exact .inl hs
            · exact .inr ⟨.inr hr.1, hr.2⟩
          · rintro (hs | ⟨rfl | hr, hp⟩)
            · exact .inl hs
            · rw [hb] at hp; cases hp
            · exact .inr ⟨hr, hp⟩

/-- C7: on a successful run, the one-year list for a city is strictly
ascending and contains a date iff it lies in the configured year and the
tithi at its local sunrise is 30 or 15 — nothing else (in particular no
skipped/kshaya tithi) is ever recorded. -/
theorem moon_days_for_city_charn {ε : Type} (L : Lib ε) (city : City) :
    exceptSat (moon_days_for_city L city) (fun l =>
      List.Sorted (· < ·) l ∧
      ∀ d, d ∈ l ↔
        (YEAR_START ≤ d ∧ d ≤ YEAR_END ∧ is_moon_day L city d = .ok true)) := by
  unfold moon_days_for_city
  cases hscan : moonScan L city (dayRange YEAR_START YEAR_END) ∅ with
  | error e => simp [exceptSat]
  | ok s =>
    simp only [exceptSat]
    refine ⟨Finset.sort_sorted_lt s, ?_⟩
    intro d
    rw [Finset.mem_sort, moonScan_mem L city _ ∅ s hscan d, mem_dayRange]
    simp only [Finset.not_mem_empty, false_or]
    tauto

-- =========================
-- C10: one-year CSV probe order
-- =========================

/-- C10: the other-city cell for a master moon day `d` probes the city's
moon-day set at offsets `0, -1, +1, -2, +2` in that order and takes the
first hit: blank when `d` itself is a moon day, the ISO date of the first
hit otherwise, `"NaN"` when no moon day lies within two days. -/
theorem yearCell_probe {ε : Type} (L : Lib ε) (s : Finset ℤ) (d : ℤ) :
    (d ∈ s → yearCell L s d = "") ∧
    (d ∉ s → d - 1 ∈ s → yearCell L s d = L.iso (d - 1)) ∧
    (d ∉ s → d - 1 ∉ s → d + 1 ∈ s → yearCell L s d = L.iso (d + 1)) ∧
    (d ∉ s → d - 1 ∉ s → d + 1 ∉ s → d - 2 ∈ s →
      yearCell L s d = L.iso (d - 2)) ∧
    (d ∉ s → d - 1 ∉ s → d + 1 ∉ s → d - 2 ∉ s → d + 2 ∈ s →
      yearCell L s d = L.iso (d + 2)) ∧
    (d ∉ s → d - 1 ∉ s → d + 1 ∉ s → d - 2 ∉ s → d + 2 ∉ s →
      yearCell L s d = "NaN") := by
  have e0 : d + (0 : ℤ) = d := by ring
  have e1 : d + (-1 : ℤ) = d - 1 := by ring
  have e2 : d + (1 : ℤ) = d + 1 := rfl
  have e3 : d + (-2 : ℤ) = d - 2 := by ring
  have e4 : d + (2 : ℤ) = d + 2 := rfl
  refine ⟨?_, ?_, ?_, ?_, ?_, ?_⟩
  · intro h0
    unfold yearCell probeNear yearDeltas
    rw [List.find?_cons_of_pos _ (by simp [e0, h0])]
    simp [e0]
  · intro h0 h1
    unfold yearCell probeNear yearDeltas
    rw [List.find?_cons_of_neg _ (by simp [e0, h0]),
      List.find?_cons_of_pos _ (by simp [e1, h1])]
    simp only [Option.map_some']
    rw [if_neg (by omega), e1]
  · intro h0 h1 h2
    unfold yearCell probeNear yearDeltas
    rw [List.find?_cons_of_neg _ (by simp [e0, h0]),
      List.find?_cons_of_neg _ (by simp [e1, h1]),
      List.find?_cons_of_pos _ (by simp [e2, h2])]
    simp only [Option.map_some']
    rw [if_neg (by omega)]
  · intro h0 h1 h2 h3
    unfold yearCell probeNear yearDeltas
    rw [List.find?_cons_of_neg _ (by simp [e0, h0]),
      List.find?_cons_of_neg _ (by simp [e1, h1]),
      List.find?_cons_of_neg _ (by simp [e2, h2]),
      List.find?_cons_of_pos _ (by simp [e3, h3])]
    simp only [Option.map_some']
    rw [if_neg (by omega), e3]
  · intro h0 h1 h2 h3 h4
    unfold yearCell probeNear yearDeltas
    rw [List.find?_cons_of_neg _ (by simp [e0, h0]),
      List.find?_cons_of_neg _ (by simp [e1, h1]),
      List.find?_cons_of_neg _ (by simp [e2, h2]),
      List.find?_cons_of_neg _ (by simp [e3, h3]),
      List.find?_cons_of_pos _ (by simp [e4, h4])]
    simp only [Option.map_some']
    rw [if_neg (by omega)]
  · intro h0 h1 h2 h3 h4
    unfold yearCell probeNear yearDeltas
    rw [List.find?_cons_of_neg _ (by simp [e0, h0]),
      List.find?_cons_of_neg _ (by simp [e1, h1]),
      List.find?_cons_of_neg _ (by simp [e2, h2]),
      List.find?_cons_of_neg _ (by simp [e3, h3]),
      List.find?_cons_of_neg _ (by simp [e4, h4])]
    rfl

/-- Witness for C10: a singleton moon-day set probed at the day itself, a
neighbouring day, and a far day. -/
theorem yearCell_probe_witness :
    yearCell okLib {10} 10 = "" ∧
    yearCell okLib {10} 11 = okLib.iso (11 - 1) ∧
    yearCell okLib {10} 20 = "NaN" :=
  ⟨(yearCell_probe okLib {10} 10).1 (by decide),
   (yearCell_probe okLib {10} 11).2.1 (by decide) (by decide),
   (yearCell_probe okLib {10} 20).2.2.2.2.2 (by decide) (by decide)
     (by decide) (by decide) (by decide)⟩

-- =========================
-- C9: comparison-CSV cell ambiguity
-- =========================

/-- A formatted date (two separator spaces) is never the one-character
kshaya marker. -/
theorem fmt_date_ne_kshayaMark {ε : Type} (L : Lib ε) (e : MoonEvent) :
    fmt_date L e ≠ kshayaMark := by
  intro h
  have hlen := congrArg String.length h
  simp only [fmt_date, String.length_append] at hlen
  have h1 : (" " : String).length = 1 := rfl
  have h2 : kshayaMark.length = 1 := rfl
  rw [h1, h2] at hlen
  omega

/-- C9: a blank other-city cell arises both when the city has no event at
the master index and when its same-index event formats to the master's
date, and the two outputs are the same empty string; a kshaya event's
cell is only the marker, never the city's date. -/
theorem cellFor_ambiguity {ε : Type} (L : Lib ε)
    (m : ℕ → Option MoonEvent) (ref : MoonEvent) :
    (m ref.index = none → cellFor L m ref = "") ∧
    (∀ ev, m ref.index = some ev → is_kshaya ev.kind = false →
      fmt_date L ev = fmt_date L ref → cellFor L m ref = "") ∧
    (∀ ev, m ref.index = some ev → is_kshaya ev.kind = true →
      cellFor L m ref = kshayaMark ∧ cellFor L m ref ≠ fmt_date L ev) := by
  refine ⟨?_, ?_, ?_⟩
  · intro h
    simp only [cellFor, h]
  · intro ev h hk hfmt
    simp only [cellFor, h, hk, Bool.false_eq_true, if_false, if_pos hfmt]
  · intro ev h hk
    constructor
    · simp only [cellFor, h, hk, if_true]
    · simp only [cellFor, h, hk, if_true]
      exact fun hx => fmt_date_ne_kshayaMark L ev hx.symm

/-- Witness for C9: the missing-event blank, the same-date blank, and a
kshaya marker cell, at concrete events. -/
theorem cellFor_ambiguity_witness :
    cellFor okLib (fun _ => none) ⟨0, 5, 0⟩ = "" ∧
    cellFor okLib (fun _ => some ⟨0, 5, 0⟩) ⟨0, 5, 0⟩ = "" ∧
    (cellFor okLib (fun _ => some ⟨0, 6, 2⟩) ⟨0, 5, 0⟩ = kshayaMark ∧
      cellFor okLib (fun _ => some ⟨0, 6, 2⟩) ⟨0, 5, 0⟩ ≠
        fmt_date okLib ⟨0, 6, 2⟩) :=
  ⟨(cellFor_ambiguity okLib (fun _ => none) ⟨0, 5, 0⟩).1 rfl,
   (cellFor_ambiguity okLib (fun _ => some ⟨0, 5, 0⟩) ⟨0, 5, 0⟩).2.1
     ⟨0, 5, 0⟩ rfl rfl rfl,
   (cellFor_ambiguity okLib (fun _ => some ⟨0, 6, 2⟩) ⟨0, 5, 0⟩).2.2
     ⟨0, 6, 2⟩ rfl rfl⟩

-- =========================
-- C4: comparison-CSV formatting
-- =========================

/-- C4: the CSV formatter recomputes events for every configured city and
maps the row builder over the master city's events (one row each); the
per-city lookup is keyed by event index; and each other-city cell is the
kshaya marker for a kshaya event, blank for a same-date event or a missing
index, and the city's formatted date when it formats differently. -/
theorem generate_csv_shape {ε : Type} (L : Lib ε) :
    (generate_csv_rows L =
      Except.map (fun ce => csvRows L ce) (allCityEvents L CITIES)) ∧
    (∀ ce, (csvRows L ce).length = (refEventsOf ce).length) ∧
    (∀ ce, csvRows L ce =
      (refEventsOf ce).map (csvRow L (mapsOf ce) otherCityNames)) ∧
    (∀ ce c i ev, mapsOf ce c i = some ev → ev.index = i) ∧
    (∀ (m : ℕ → Option MoonEvent) (ref : MoonEvent),
      (m ref.index = none → cellFor L m ref = "") ∧
      (∀ ev, m ref.index = some ev →
        (is_kshaya ev.kind = true → cellFor L m ref = kshayaMark) ∧
        (is_kshaya ev.kind = false → ev.date = ref.date →
          cellFor L m ref = "") ∧
        (is_kshaya ev.kind = false →
          fmt_date L ev ≠ fmt_date L ref →
          cellFor L m ref = fmt_date L ev))) := by
  refine ⟨?_, ?_, ?_, ?_, ?_⟩
  · unfold generate_csv_rows Except.map
    cases allCityEvents L CITIES <;> rfl
  · intro ce
    simp [csvRows]
  · intro ce
    rfl
  · intro ce c i ev h
    unfold mapsOf indexLookup at h
    have := List.find?_some h
    simpa using this
  · intro m ref
    refine ⟨?_, ?_⟩
    · intro h
      simp only [cellFor, h]
    · intro ev h
      refine ⟨?_, ?_, ?_⟩
      · intro hk
        simp only [cellFor, h, hk, if_true]
      · intro hk hdate
        have hfmt : fmt_date L ev = fmt_date L ref := by
          unfold fmt_date
          rw [hdate]
        simp only [cellFor, h, hk, Bool.false_eq_true, if_false,
          if_pos hfmt]
      · intro hk hfmt
        simp only [cellFor, h, hk, Bool.false_eq_true, if_false,
          if_neg hfmt]

/-- Witness for C4: concrete city-events lists and cells exercising every
hypothesis of the shape theorem. -/
theorem generate_csv_shape_witness :
    (⟨0, 5, 0⟩ : MoonEvent).index = 0 ∧
    cellFor okLib (fun _ => some ⟨0, 5, 1⟩) ⟨1, 5, 0⟩ = "" ∧
    cellFor okLib (fun _ => some ⟨0, 6, 2⟩) ⟨1, 5, 0⟩ = kshayaMark :=
  ⟨(generate_csv_shape okLib).2.2.2.1
      [("Mysuru", [⟨0, 5, 0⟩])] "Mysuru" 0 ⟨0, 5, 0⟩ rfl,
   ((generate_csv_shape okLib).2.2.2.2 (fun _ => some ⟨0, 5, 1⟩)
      ⟨1, 5, 0⟩).2 ⟨0, 5, 1⟩ rfl |>.2.1 rfl rfl,
   ((generate_csv_shape okLib).2.2.2.2 (fun _ => some ⟨0, 6, 2⟩)
      ⟨1, 5, 0⟩).2 ⟨0, 6, 2⟩ rfl |>.1 rfl⟩
